import Mathlib

/-
Verification of the Remix value store of koji-core
(src/frontend/remix/index.ts) against its specification.

The store keeps a JSON-like ValueTree, merges host overrides over
defaults at initialization (array fields in the override replace the
default's array wholesale, object fields merge key by key, recursively,
matching the deepmerge library with the custom arrayMerge used by the
source), gates writes on a readiness flag set by the host's
KojiPreview.IsRemixing message, and pushes the full tree to the host on
every write.
-/

namespace KojiCore

/-- A JSON-compatible JavaScript value as the Remix store handles it.
`null` stands for both JS null and undefined; `nan` is the (falsy)
number NaN, kept separate so numbers can stay exact integers. -/
inductive Value where
  | null : Value
  | nan : Value
  | bool : Bool → Value
  | num : Int → Value
  | str : String → Value
  | arr : List Value → Value
  | obj : List (String × Value) → Value

/-- JavaScript truthiness of a `Value`: undefined/null, false, 0, NaN
and the empty string are falsy; every array and object is truthy. -/
def Value.truthy : Value → Bool
  | .null => false
  | .nan => false
  | .bool b => b
  | .num n => decide (n ≠ 0)
  | .str s => decide (s ≠ "")
  | .arr _ => true
  | .obj _ => true

/-- First-match lookup of a key in an object's field list (JS objects
have unique keys; first match agrees with JS property access). -/
def lookupField (k : String) : List (String × Value) → Option Value
  | [] => none
  | (k', v) :: rest => if k' = k then some v else lookupField k rest

/-- JS property access `v[k]`: a missing property reads as undefined,
modelled by `Value.null`. -/
def Value.getProp (v : Value) (k : String) : Value :=
  match v with
  | .obj f => (lookupField k f).getD .null
  | _ => .null

mutual

/-- The deepmerge npm call as the source configures it:
`deepmerge(target, source, { arrayMerge: (dest, source) => source })`.
Two objects merge key by key (target keys first, keeping their
positions, then source-only keys); any non-object source value —
scalars and, through the custom arrayMerge, arrays — replaces the
target value wholesale. -/
def deepmerge : Value → Value → Value
  | Value.obj tf, Value.obj sf =>
      Value.obj (mergeFields tf sf ++ sf.filter (fun kv => (lookupField kv.1 tf).isNone))
  | _, s => s
termination_by t _ => sizeOf t
decreasing_by all_goals simp_wf

/-- The target-keys part of an object merge: every target entry keeps
its key; its value is deep-merged with the source's value when the
source also has the key. -/
def mergeFields : List (String × Value) → List (String × Value) → List (String × Value)
  | [], _ => []
  | (k, v) :: rest, sf =>
      (k, match lookupField k sf with
          | some sv => deepmerge v sv
          | none => v) :: mergeFields rest sf
termination_by tf _ => sizeOf tf
decreasing_by all_goals (simp_wf <;> omega)

end

/-- Modelled from the spec: the repository's `utils/get` helper (not
under src/) performs a nested lookup along an ordered key path and
reports absence when any segment is missing. -/
def getPath : Value → List String → Option Value
  | v, [] => some v
  | .obj f, k :: rest =>
      match lookupField k f with
      | some v => getPath v rest
      | none => none
  | _, _ :: _ => none

/-- The error kinds of the spec's §7: ConfigurationError for missing
required init data, StateError for an operation in the wrong lifecycle
phase; each carries the source's message string. -/
inductive RemixError where
  | configurationError : String → RemixError
  | stateError : String → RemixError

/-- Whether an error is the spec's StateError kind. -/
def RemixError.isStateError : RemixError → Bool
  | .stateError _ => true
  | .configurationError _ => false

/-- A structured message posted to the host frame: an event name plus
an optional data payload. -/
structure KojiMessage where
  kojiEventName : String
  data : Option Value

/-- The Remix store's private fields. -/
structure RemixState where
  values : Value
  isInitialized : Bool
  hasReceivedReadyResponse : Bool

/-- The field values the Remix constructor starts from:
`values = {}`, `isInitialized = false`, `hasReceivedReadyResponse = false`. -/
def initialState : RemixState :=
  { values := Value.obj [], isInitialized := false, hasReceivedReadyResponse := false }

/-- The constructor's listener (modelled from the spec's Message Bridge
`onMessage`): a host message named KojiPreview.IsRemixing sets the
readiness flag; every other inbound message leaves the store alone. -/
def onHostMessage (st : RemixState) (eventName : String) : RemixState :=
  if eventName = "KojiPreview.IsRemixing" then
    { st with hasReceivedReadyResponse := true }
  else st

/-- The overrides `init` reads from `window.KOJI_OVERRIDES`: guarded
property walk to `overrides.remixData`, falling back to `{}` when the
chain is falsy (the source's `overrides.remixData || {}`). -/
def computeOverrides (kojiOverrides : Value) : Value :=
  if kojiOverrides.truthy && (kojiOverrides.getProp "overrides").truthy then
    let r := (kojiOverrides.getProp "overrides").getProp "remixData"
    if r.truthy then r else Value.obj []
  else Value.obj []

/-- `Remix.init(remixData)`: rejects falsy `remixData`, rejects a
second initialization, otherwise stores
`deepmerge(remixData, overrides)` and marks the store initialized.
`kojiOverrides` is the value of `window.KOJI_OVERRIDES` (null when the
property is absent). -/
def Remix.init (st : RemixState) (kojiOverrides : Value) (remixData : Value) :
    Except RemixError RemixState :=
  if !remixData.truthy then
    Except.error (RemixError.configurationError "Unable to find remixData")
  else if st.isInitialized then
    Except.error (RemixError.stateError "You are trying to initialize your remix data more than one time. Note that Koji.config() will automatically call this method.")
  else
    Except.ok { st with
      isInitialized := true,
      values := deepmerge remixData (computeOverrides kojiOverrides) }

/-- `Remix.get(path?, defaultValue?)`: with no path, the whole tree;
with a path, the nested lookup with the supplied fallback (an absent
fallback reads as undefined, i.e. `Value.null`). -/
def Remix.get (st : RemixState) (path : Option (List String))
    (defaultValue : Option Value) : Value :=
  match path with
  | none => st.values
  | some p =>
      match getPath st.values p with
      | some v => v
      | none => defaultValue.getD Value.null

/-- The `sendValues` push (bridge exchange modelled from the spec's
Sync Protocol): one KojiPreview.SetValue message carrying the fixed
path, the full current tree and `skipUpdate: false`. -/
def sendValuesMessage (values : Value) : KojiMessage :=
  { kojiEventName := "KojiPreview.SetValue",
    data := some (Value.obj
      [("path", Value.arr [Value.str "remixData"]),
       ("newValue", values),
       ("skipUpdate", Value.bool false)]) }

/-- `sendValues` given the payload `ack` the host's
KojiPreview.DidChangeVcc reply carries: returns `!!ack` together with
the single message sent. -/
def sendValues (st : RemixState) (ack : Value) : Bool × List KojiMessage :=
  (ack.truthy, [sendValuesMessage st.values])

/-- `Remix.set(newValue)`: throws before the readiness signal;
otherwise deep-merges `newValue` into the tree and pushes the merged
tree, returning the push's boolean result. -/
def Remix.set (st : RemixState) (newValue : Value) (ack : Value) :
    Except RemixError (Bool × RemixState × List KojiMessage) :=
  if !st.hasReceivedReadyResponse then
    Except.error (RemixError.stateError "It looks like you are trying to call the `Koji.remix.set()` method before calling `Koji.ready(). This will prevent data from being stored properly.`")
  else
    let st' := { st with values := deepmerge st.values newValue }
    let (ok, msgs) := sendValues st' ack
    Except.ok (ok, st', msgs)

/-- `Remix.overwrite(newValues)`: unconditionally replaces the tree and
pushes it. -/
def Remix.overwrite (st : RemixState) (newValues : Value) (ack : Value) :
    Bool × RemixState × List KojiMessage :=
  let st' := { st with values := newValues }
  let (ok, msgs) := sendValues st' ack
  (ok, st', msgs)

/-- `Remix.finish()`: throws before the readiness signal; otherwise
sends the one-way KojiPreview.Finish event. -/
def Remix.finish (st : RemixState) :
    Except RemixError (RemixState × List KojiMessage) :=
  if !st.hasReceivedReadyResponse then
    Except.error (RemixError.stateError "It looks like you are trying to call the `Koji.remix.finish()` method before calling `Koji.ready(). This will result in unpredictable behavior in a remix preview.`")
  else
    Except.ok (st, [{ kojiEventName := "KojiPreview.Finish", data := none }])

/-- `Remix.cancel()`: unconditionally sends the one-way
KojiPreview.Cancel event. -/
def Remix.cancel (st : RemixState) : RemixState × List KojiMessage :=
  (st, [{ kojiEventName := "KojiPreview.Cancel", data := none }])

/-- `Remix.encryptValue(rawValue)` (bridge exchange modelled from the
spec): sends the KojiPreview.EncryptValue request and resolves with the
`encryptedValue` field of the KojiPreview.ValueEncrypted reply payload
`reply`. -/
def Remix.encryptValue (rawValue : Value) (reply : Value) :
    Value × List KojiMessage :=
  (reply.getProp "encryptedValue",
   [{ kojiEventName := "KojiPreview.EncryptValue",
      data := some (Value.obj [("plaintextValue", rawValue)]) }])

/-- `Remix.decryptValue(encryptedValue)` (bridge exchange modelled from
the spec): sends the KojiPreview.DecryptValue request and resolves with
the `decryptedValue` field of the KojiPreview.ValueDecrypted reply
payload `reply`. -/
def Remix.decryptValue (encryptedValue : Value) (reply : Value) :
    Value × List KojiMessage :=
  (reply.getProp "decryptedValue",
   [{ kojiEventName := "KojiPreview.DecryptValue",
      data := some (Value.obj [("encryptedValue", encryptedValue)]) }])

/-- Every observable interaction with the store: an inbound host
message or one of its public methods (with the host reply payload the
bridge would hand back, where the method awaits one). -/
inductive RemixAction where
  | hostMessage : String → RemixAction
  | init : Value → Value → RemixAction
  | getValues : Option (List String) → Option Value → RemixAction
  | set : Value → Value → RemixAction
  | overwrite : Value → Value → RemixAction
  | finish : RemixAction
  | cancel : RemixAction
  | encryptValue : Value → Value → RemixAction
  | decryptValue : Value → Value → RemixAction

/-- One step of the store: the state after an action together with the
messages the action posted to the host (a thrown error leaves the state
untouched and posts nothing, as every throw in the source happens
before any assignment or send). -/
def stepFull (st : RemixState) : RemixAction → RemixState × List KojiMessage
  | .hostMessage e => (onHostMessage st e, [])
  | .init w d =>
      match Remix.init st w d with
      | .ok st' => (st', [])
      | .error _ => (st, [])
  | .getValues _ _ => (st, [])
  | .set nv ack =>
      match Remix.set st nv ack with
      | .ok (_, st', msgs) => (st', msgs)
      | .error _ => (st, [])
  | .overwrite nv ack =>
      match Remix.overwrite st nv ack with
      | (_, st', msgs) => (st', msgs)
  | .finish =>
      match Remix.finish st with
      | .ok (st', msgs) => (st', msgs)
      | .error _ => (st, [])
  | .cancel => Remix.cancel st
  | .encryptValue v r => (st, (Remix.encryptValue v r).2)
  | .decryptValue v r => (st, (Remix.decryptValue v r).2)

/-- The state reached after an action, messages dropped. -/
def stepState (st : RemixState) (a : RemixAction) : RemixState :=
  (stepFull st a).1

/-- The state reached after a whole sequence of actions. -/
def runActions (st : RemixState) (acts : List RemixAction) : RemixState :=
  acts.foldl stepState st

/-- The field list of an object value (empty for non-objects); used to
observe the shape of merged trees. -/
def objFields : Value → List (String × Value)
  | .obj f => f
  | _ => []

/-- A fresh store that has already received the readiness signal. -/
def readyState : RemixState :=
  { values := Value.obj [], isInitialized := false, hasReceivedReadyResponse := true }

/-- A store that has already completed a successful initialization. -/
def initializedState : RemixState :=
  { values := Value.obj [("a", Value.num 1)], isInitialized := true,
    hasReceivedReadyResponse := false }

theorem lookupField_append (k : String) (A B : List (String × Value)) :
    lookupField k (A ++ B) =
      match lookupField k A with
      | some v => some v
      | none => lookupField k B := by
  induction A with
  | nil => simp [lookupField]
  | cons kv rest ih =>
    obtain ⟨k', v⟩ := kv
    by_cases hk : k' = k <;> simp [lookupField, hk, ih]

theorem lookupField_mergeFields (k : String) (tf sf : List (String × Value)) :
    lookupField k (mergeFields tf sf) =
      Option.map (fun v =>
        match lookupField k sf with
        | some sv => deepmerge v sv
        | none => v) (lookupField k tf) := by
  induction tf with
  | nil => simp [mergeFields, lookupField]
  | cons kv rest ih =>
    obtain ⟨k', v⟩ := kv
    by_cases hk : k' = k <;> simp [mergeFields, lookupField, hk, ih]

theorem lookupField_filter_isNone (k : String) (tf sf : List (String × Value)) :
    lookupField k (sf.filter (fun kv => (lookupField kv.1 tf).isNone)) =
      if (lookupField k tf).isNone then lookupField k sf else none := by
  induction sf with
  | nil => simp [lookupField]
  | cons kv rest ih =>
    obtain ⟨k', v⟩ := kv
    by_cases hk : k' = k
    · subst hk
      by_cases ht : (lookupField k' tf).isNone <;>
        simp [List.filter_cons, ht, lookupField, ih]
    · by_cases ht : (lookupField k' tf).isNone <;>
        simp [List.filter_cons, ht, lookupField, hk, ih]

/-- Key-by-key characterization of an object-object deep merge. -/
theorem deepmerge_obj_lookup (tf sf : List (String × Value)) (k : String) :
    lookupField k (objFields (deepmerge (Value.obj tf) (Value.obj sf))) =
      match lookupField k tf, lookupField k sf with
      | some tv, some sv => some (deepmerge tv sv)
      | some tv, none => some tv
      | none, o => o := by
  rw [deepmerge]
  simp only [objFields, lookupField_append, lookupField_mergeFields,
    lookupField_filter_isNone]
  cases ht : lookupField k tf <;> cases hs : lookupField k sf <;> simp

theorem deepmerge_arr (t : Value) (a : List Value) :
    deepmerge t (Value.arr a) = Value.arr a := by
  cases t <;> simp [deepmerge]

/-- Sanity evaluation of the merge on a concrete pair of trees: scalar
fields are overridden, arrays replaced wholesale, nested objects merged
key by key, and source-only keys appended. -/
theorem deepmerge_concrete_eval :
    deepmerge
      (Value.obj [("a", Value.num 1), ("c", Value.arr [Value.num 1]),
                  ("d", Value.obj [("x", Value.num 5)])])
      (Value.obj [("a", Value.num 2), ("b", Value.num 3),
                  ("c", Value.arr [Value.num 9]),
                  ("d", Value.obj [("y", Value.num 6)])]) =
    Value.obj [("a", Value.num 2), ("c", Value.arr [Value.num 9]),
               ("d", Value.obj [("x", Value.num 5), ("y", Value.num 6)]),
               ("b", Value.num 3)] := by
  simp [deepmerge, mergeFields, lookupField]

/-- Readiness is preserved by every single action. -/
theorem stepState_ready_mono (st : RemixState) (a : RemixAction)
    (h : st.hasReceivedReadyResponse = true) :
    (stepState st a).hasReceivedReadyResponse = true := by
  cases a with
  | hostMessage e =>
    simp only [stepState, stepFull, onHostMessage]
    split <;> simp [h]
  | init w d =>
    cases hinit : Remix.init st w d with
    | ok st' =>
      have hflag : st'.hasReceivedReadyResponse = st.hasReceivedReadyResponse := by
        simp only [Remix.init] at hinit
        split at hinit
        · simp at hinit
        · split at hinit
          · simp at hinit
          · injection hinit with h2
            subst h2
            rfl
      simp [stepState, stepFull, hinit, hflag, h]
    | error e =>
      simp [stepState, stepFull, hinit, h]
  | getValues p f => simpa [stepState, stepFull] using h
  | set nv ack => simp [stepState, stepFull, Remix.set, sendValues, h]
  | overwrite nv ack => simp [stepState, stepFull, Remix.overwrite, sendValues, h]
  | finish => simp [stepState, stepFull, Remix.finish, h]
  | cancel => simpa [stepState, stepFull, Remix.cancel] using h
  | encryptValue v r => simpa [stepState, stepFull] using h
  | decryptValue v r => simpa [stepState, stepFull] using h

/-- Readiness is preserved by every sequence of actions. -/
theorem runActions_ready_mono (st : RemixState) (acts : List RemixAction)
    (h : st.hasReceivedReadyResponse = true) :
    (runActions st acts).hasReceivedReadyResponse = true := by
  induction acts generalizing st with
  | nil => simpa [runActions] using h
  | cons a rest ih =>
    have : runActions st (a :: rest) = runActions (stepState st a) rest := by
      simp [runActions, List.foldl_cons, stepState]
    rw [this]
    exact ih _ (stepState_ready_mono st a h)

/-- C1: after a successful `init(D)` with host override source `w`
(the value of `window.KOJI_OVERRIDES`, overrides read from
`overrides.remixData` and taken as empty when absent), `get()` with no
path returns `deepmerge D (computeOverrides w)`; in that merge,
array-valued override fields replace the default's field wholesale,
and object fields merge key by key, recursively. -/
theorem remix_C1_init_get_deepmerge :
    (∀ (st st' : RemixState) (w D : Value),
        Remix.init st w D = Except.ok st' →
        Remix.get st' none none = deepmerge D (computeOverrides w)) ∧
    (∀ (t : Value) (a : List Value), deepmerge t (Value.arr a) = Value.arr a) ∧
    (∀ (tf sf : List (String × Value)) (k : String),
        lookupField k (objFields (deepmerge (Value.obj tf) (Value.obj sf))) =
          match lookupField k tf, lookupField k sf with
          | some tv, some sv => some (deepmerge tv sv)
          | some tv, none => some tv
          | none, o => o) := by
  refine ⟨?_, deepmerge_arr, deepmerge_obj_lookup⟩
  intro st st' w D h
  simp only [Remix.init] at h
  split at h
  · simp at h
  · split at h
    · simp at h
    · injection h with h2
      subst h2
      rfl

/-- C1 witness: a concrete successful initialization. -/
theorem remix_C1_witness :
    Remix.get
      { values := deepmerge (Value.obj [("a", Value.num 1)]) (computeOverrides Value.null),
        isInitialized := true, hasReceivedReadyResponse := false } none none =
      deepmerge (Value.obj [("a", Value.num 1)]) (computeOverrides Value.null) :=
  remix_C1_init_get_deepmerge.1 initialState _ Value.null (Value.obj [("a", Value.num 1)]) rfl

/-- C2: set before the readiness signal throws the StateError and posts
nothing; after the signal it merges with the array-replacing deepmerge,
posts exactly one push carrying the full merged tree, and returns the
push's boolean result. -/
theorem remix_C2_set_gating :
    (∀ (st : RemixState) (nv ack : Value),
        st.hasReceivedReadyResponse = false →
        Remix.set st nv ack = Except.error (RemixError.stateError
          "It looks like you are trying to call the `Koji.remix.set()` method before calling `Koji.ready(). This will prevent data from being stored properly.`") ∧
        stepFull st (RemixAction.set nv ack) = (st, [])) ∧
    (∀ (st : RemixState) (nv ack : Value),
        st.hasReceivedReadyResponse = true →
        Remix.set st nv ack = Except.ok (ack.truthy,
          { st with values := deepmerge st.values nv },
          [sendValuesMessage (deepmerge st.values nv)])) := by
  constructor
  · intro st nv ack h
    exact ⟨by simp [Remix.set, h], by simp [stepFull, Remix.set, h]⟩
  · intro st nv ack h
    simp [Remix.set, sendValues, h]

/-- C2 witness: set fails on the fresh store and succeeds after the
readiness signal. -/
theorem remix_C2_witness :
    (Remix.set initialState (Value.num 1) Value.null = Except.error (RemixError.stateError
      "It looks like you are trying to call the `Koji.remix.set()` method before calling `Koji.ready(). This will prevent data from being stored properly.`") ∧
     stepFull initialState (RemixAction.set (Value.num 1) Value.null) = (initialState, [])) ∧
    Remix.set readyState (Value.num 1) (Value.num 1) = Except.ok ((Value.num 1).truthy,
      { readyState with values := deepmerge readyState.values (Value.num 1) },
      [sendValuesMessage (deepmerge readyState.values (Value.num 1))]) :=
  ⟨remix_C2_set_gating.1 initialState (Value.num 1) Value.null rfl,
   remix_C2_set_gating.2 readyState (Value.num 1) (Value.num 1) rfl⟩

/-- C3: overwrite has no precondition: for every state, including one
that is neither initialized nor ready, it replaces the tree so that a
path-less get returns exactly the new tree, and performs the same
sendValues push as set does. -/
theorem remix_C3_overwrite_replaces :
    ∀ (st : RemixState) (T ack : Value),
      Remix.overwrite st T ack =
        ((sendValues { st with values := T } ack).1,
         { st with values := T },
         (sendValues { st with values := T } ack).2) ∧
      Remix.get { st with values := T } none none = T ∧
      stepFull st (RemixAction.overwrite T ack) =
        ({ st with values := T }, [sendValuesMessage T]) := by
  intro st T ack
  exact ⟨rfl, rfl, rfl⟩

/-- C4: every push is exactly one KojiPreview.SetValue message carrying
the fixed path remixData, the full current tree and skipUpdate false,
and its boolean result is the truthiness of the awaited
KojiPreview.DidChangeVcc payload. -/
theorem remix_C4_push_shape :
    ∀ (st : RemixState) (ack : Value),
      sendValues st ack =
        (ack.truthy,
         [{ kojiEventName := "KojiPreview.SetValue",
            data := some (Value.obj
              [("path", Value.arr [Value.str "remixData"]),
               ("newValue", st.values),
               ("skipUpdate", Value.bool false)]) }]) ∧
      (sendValues st ack).2.length = 1 := by
  intro st ack
  exact ⟨rfl, rfl⟩

/-- C5: the readiness flag starts false, is set by the IsRemixing host
message, is never reset by any later action, and once it is true every
later set or finish passes its readiness precondition. -/
theorem remix_C5_ready_monotone :
    initialState.hasReceivedReadyResponse = false ∧
    (∀ st : RemixState,
        (stepState st (RemixAction.hostMessage "KojiPreview.IsRemixing")).hasReceivedReadyResponse = true) ∧
    (∀ (st : RemixState) (a : RemixAction),
        st.hasReceivedReadyResponse = true →
        (stepState st a).hasReceivedReadyResponse = true) ∧
    (∀ (st : RemixState) (acts : List RemixAction) (nv ack : Value),
        st.hasReceivedReadyResponse = true →
        (∃ r, Remix.set (runActions st acts) nv ack = Except.ok r) ∧
        (∃ r, Remix.finish (runActions st acts) = Except.ok r)) := by
  refine ⟨rfl, ?_, stepState_ready_mono, ?_⟩
  · intro st
    simp [stepState, stepFull, onHostMessage]
  · intro st acts nv ack h
    have hr := runActions_ready_mono st acts h
    have hset : Remix.set (runActions st acts) nv ack =
        Except.ok (ack.truthy,
          { runActions st acts with values := deepmerge (runActions st acts).values nv },
          [sendValuesMessage (deepmerge (runActions st acts).values nv)]) := by
      simp [Remix.set, sendValues, hr]
    have hfin : Remix.finish (runActions st acts) =
        Except.ok (runActions st acts,
          [{ kojiEventName := "KojiPreview.Finish", data := none }]) := by
      simp [Remix.finish, hr]
    exact ⟨⟨_, hset⟩, ⟨_, hfin⟩⟩

/-- C5 witness: a ready store stays ready across an action and accepts
a later set. -/
theorem remix_C5_witness :
    (stepState readyState RemixAction.cancel).hasReceivedReadyResponse = true ∧
    (∃ r, Remix.set (runActions readyState [RemixAction.finish]) (Value.num 1) Value.null =
      Except.ok r) :=
  ⟨remix_C5_ready_monotone.2.2.1 readyState RemixAction.cancel rfl,
   (remix_C5_ready_monotone.2.2.2 readyState [RemixAction.finish] (Value.num 1) Value.null rfl).1⟩

/-- C6: with a path, get returns the fallback exactly when the nested
lookup fails at some segment and the stored value otherwise, at any
depth; with no path it returns the whole tree; it is a total function
of the state, so it never fails, in any state. -/
theorem remix_C6_get_paths :
    (∀ (st : RemixState) (p : List String) (f : Value),
        getPath st.values p = none →
        Remix.get st (some p) (some f) = f) ∧
    (∀ (st : RemixState) (p : List String) (f v : Value),
        getPath st.values p = some v →
        Remix.get st (some p) (some f) = v) ∧
    (∀ (st : RemixState) (f : Option Value),
        Remix.get st none f = st.values) := by
  refine ⟨?_, ?_, fun st f => rfl⟩
  · intro st p f h
    simp [Remix.get, h]
  · intro st p f v h
    simp [Remix.get, h]

/-- C6 witness: a present and an absent nested path on a concrete
uninitialized-irrelevant state. -/
theorem remix_C6_witness :
    Remix.get { values := Value.obj [("a", Value.obj [("b", Value.num 7)])],
                isInitialized := false, hasReceivedReadyResponse := false }
        (some ["a", "b"]) (some (Value.str "fb")) = Value.num 7 ∧
    Remix.get { values := Value.obj [("a", Value.obj [("b", Value.num 7)])],
                isInitialized := false, hasReceivedReadyResponse := false }
        (some ["a", "c"]) (some (Value.str "fb")) = Value.str "fb" :=
  ⟨remix_C6_get_paths.2.1 _ ["a", "b"] (Value.str "fb") (Value.num 7) rfl,
   remix_C6_get_paths.1 _ ["a", "c"] (Value.str "fb") rfl⟩

/-- C7 counterexample: after a successful first initialization, a
second init call whose argument is falsy throws the ConfigurationError
(Unable to find remixData), not a StateError, because the falsy check
runs before the already-initialized check. -/
theorem remix_C7_counterexample :
    Remix.init initialState Value.null (Value.obj []) =
      Except.ok (stepState initialState (RemixAction.init Value.null (Value.obj []))) ∧
    Remix.init (stepState initialState (RemixAction.init Value.null (Value.obj [])))
        Value.null Value.null =
      Except.error (RemixError.configurationError "Unable to find remixData") ∧
    (RemixError.configurationError "Unable to find remixData").isStateError = false :=
  ⟨rfl, rfl, rfl⟩

/-- C7 amended: once initialized, every subsequent init fails and
leaves the state unchanged; the error is the StateError when the
supplied defaults are truthy and the ConfigurationError when they are
falsy. -/
theorem remix_C7_double_init (st : RemixState) (w d : Value)
    (h : st.isInitialized = true) :
    (d.truthy = true →
      Remix.init st w d = Except.error (RemixError.stateError
        "You are trying to initialize your remix data more than one time. Note that Koji.config() will automatically call this method.")) ∧
    (d.truthy = false →
      Remix.init st w d =
        Except.error (RemixError.configurationError "Unable to find remixData")) ∧
    stepState st (RemixAction.init w d) = st := by
  refine ⟨?_, ?_, ?_⟩
  · intro ht
    simp [Remix.init, ht, h]
  · intro ht
    simp [Remix.init, ht]
  · cases hd : d.truthy with
    | true => simp [stepState, stepFull, Remix.init, hd, h]
    | false => simp [stepState, stepFull, Remix.init, hd]

/-- C7 witness: a second init with truthy defaults on an initialized
store throws the StateError and changes nothing. -/
theorem remix_C7_witness :
    Remix.init initializedState Value.null (Value.obj [("b", Value.num 2)]) =
      Except.error (RemixError.stateError
        "You are trying to initialize your remix data more than one time. Note that Koji.config() will automatically call this method.") ∧
    stepState initializedState (RemixAction.init Value.null (Value.obj [("b", Value.num 2)])) =
      initializedState :=
  ⟨(remix_C7_double_init initializedState Value.null (Value.obj [("b", Value.num 2)]) rfl).1 rfl,
   (remix_C7_double_init initializedState Value.null (Value.obj [("b", Value.num 2)]) rfl).2.2⟩

/-- C8: encryptValue and decryptValue are pure relays: each posts
exactly its one request message carrying the input untouched and
returns exactly the named field of the host's reply payload, with no
local transformation. -/
theorem remix_C8_crypto_relay :
    ∀ v r : Value,
      Remix.encryptValue v r =
        (r.getProp "encryptedValue",
         [{ kojiEventName := "KojiPreview.EncryptValue",
            data := some (Value.obj [("plaintextValue", v)]) }]) ∧
      Remix.decryptValue v r =
        (r.getProp "decryptedValue",
         [{ kojiEventName := "KojiPreview.DecryptValue",
            data := some (Value.obj [("encryptedValue", v)]) }]) := by
  intro v r
  exact ⟨rfl, rfl⟩

/-- C9: a throwing init, set or finish leaves the state exactly as it
was and posts no message; in particular a ConfigurationError init does
not mark the store initialized, so on a store that was not yet
initialized a later init with truthy defaults succeeds. -/
theorem remix_C9_failure_atomicity :
    (∀ (st : RemixState) (w d : Value) (e : RemixError),
        Remix.init st w d = Except.error e →
        stepFull st (RemixAction.init w d) = (st, [])) ∧
    (∀ (st : RemixState) (nv ack : Value) (e : RemixError),
        Remix.set st nv ack = Except.error e →
        stepFull st (RemixAction.set nv ack) = (st, [])) ∧
    (∀ (st : RemixState) (e : RemixError),
        Remix.finish st = Except.error e →
        stepFull st RemixAction.finish = (st, [])) ∧
    (∀ (st : RemixState) (w d : Value),
        st.isInitialized = false → d.truthy = false →
        Remix.init st w d =
          Except.error (RemixError.configurationError "Unable to find remixData") ∧
        (stepState st (RemixAction.init w d)).isInitialized = false ∧
        (∀ d' : Value, d'.truthy = true →
          Remix.init (stepState st (RemixAction.init w d)) w d' =
            Except.ok { st with
              isInitialized := true,
              values := deepmerge d' (computeOverrides w) })) := by
  refine ⟨?_, ?_, ?_, ?_⟩
  · intro st w d e h
    simp [stepFull, h]
  · intro st nv ack e h
    simp [stepFull, h]
  · intro st e h
    simp [stepFull, h]
  · intro st w d h0 hd
    have hstep : stepState st (RemixAction.init w d) = st := by
      simp [stepState, stepFull, Remix.init, hd]
    refine ⟨by simp [Remix.init, hd], by rw [hstep]; exact h0, ?_⟩
    intro d' hd'
    rw [hstep]
    simp [Remix.init, hd', h0]

/-- C9 witness: a failed init with falsy defaults leaves the fresh
store uninitialized and a later init with an object succeeds. -/
theorem remix_C9_witness :
    Remix.init initialState Value.null (Value.num 0) =
      Except.error (RemixError.configurationError "Unable to find remixData") ∧
    (stepState initialState (RemixAction.init Value.null (Value.num 0))).isInitialized = false ∧
    Remix.init (stepState initialState (RemixAction.init Value.null (Value.num 0)))
        Value.null (Value.obj [("a", Value.num 1)]) =
      Except.ok { initialState with
        isInitialized := true,
        values := deepmerge (Value.obj [("a", Value.num 1)]) (computeOverrides Value.null) } :=
  ⟨(remix_C9_failure_atomicity.2.2.2 initialState Value.null (Value.num 0) rfl rfl).1,
   (remix_C9_failure_atomicity.2.2.2 initialState Value.null (Value.num 0) rfl rfl).2.1,
   (remix_C9_failure_atomicity.2.2.2 initialState Value.null (Value.num 0) rfl rfl).2.2
     (Value.obj [("a", Value.num 1)]) rfl⟩

/-- C10: init rejects every falsy defaults argument — 0, the empty
string, false and NaN all produce the ConfigurationError even though a
value was supplied — and any successful init forces truthy defaults. -/
theorem remix_C10_truthy_precondition :
    (∀ (st : RemixState) (w : Value),
        Remix.init st w (Value.num 0) =
          Except.error (RemixError.configurationError "Unable to find remixData") ∧
        Remix.init st w (Value.str "") =
          Except.error (RemixError.configurationError "Unable to find remixData") ∧
        Remix.init st w (Value.bool false) =
          Except.error (RemixError.configurationError "Unable to find remixData") ∧
        Remix.init st w Value.nan =
          Except.error (RemixError.configurationError "Unable to find remixData")) ∧
    (∀ (st st' : RemixState) (w d : Value),
        Remix.init st w d = Except.ok st' → d.truthy = true) := by
  constructor
  · intro st w
    refine ⟨?_, ?_, ?_, ?_⟩ <;> simp [Remix.init, Value.truthy]
  · intro st st' w d h
    cases hd : d.truthy with
    | true => rfl
    | false => simp [Remix.init, hd] at h

/-- C10 witness: a successful concrete init has truthy defaults. -/
theorem remix_C10_witness : (Value.obj []).truthy = true :=
  remix_C10_truthy_precondition.2 initialState _ Value.null (Value.obj []) rfl

end KojiCore
